import Mathlib

/-!
# Verification of `robot/result/model.py` (execution-result tree)

Shallow embedding of the result model classes of `src/robot/result/model.py`:
the `StatusMixin` status flags, `Keyword` (name parts and lazily materialized
teardown), `TestCase`, and `TestSuite` (derived status, statistics, elapsed
time, configuration, and suite-teardown-failure propagation).

Python conventions used throughout the embedding:
- a Python `str`-or-`None` attribute becomes `Option String`;
- timestamps (`%Y%m%d %H:%M:%S.%f` strings or `None`) become `Option Int`,
  the instant in whole milliseconds; an absent/empty/falsy timestamp is `none`;
- attribute assignment through a property setter that can raise becomes a
  function returning `Except PyError _`; a property with no setter always
  returns `Except.error (.attributeError _)` (Python raises `AttributeError`
  when assigning to a read-only property);
- Python truthiness of the assigned value is modelled by a `Bool` argument.

Collaborators that live outside `src/robot/result/model.py`
(`robot.model` base classes, `TotalStatisticsBuilder`, `robot.utils
.get_elapsed_time`, `create_fixture`, `SuiteConfigurer`, the
`SuiteTeardownFailed` visitor) are modelled from the spec; each such
definition carries a doc comment starting `Modelled from the spec:`.
-/

/-- Python exception kinds raised by the embedded code, with their message. -/
inductive PyError where
  | valueError (msg : String)
  | typeError (msg : String)
  | attributeError (msg : String)
deriving Repr, DecidableEq

/-- Python `str()` of a `str`-or-`None` value (`None` renders as `"None"`). -/
def pyStr : Option String → String
  | none => "None"
  | some s => s

/-- Python truthiness of a `str`-or-`None` value: `None` and `''` are falsy. -/
def pyTruthy : Option String → Bool
  | none => false
  | some s => !(s.isEmpty)

/-- Python `str()` of the truthiness of an assigned value, as used in the
`"got '%s'"` part of the `StatusMixin` error messages. -/
def pyBoolStr (b : Bool) : String := if b then "True" else "False"

namespace StatusMixin

/-- Attribute `StatusMixin.PASS`. -/
def PASS : String := "PASS"
/-- Attribute `StatusMixin.FAIL`. -/
def FAIL : String := "FAIL"
/-- Attribute `StatusMixin.SKIP`. -/
def SKIP : String := "SKIP"
/-- Attribute `StatusMixin.NOT_RUN`. -/
def NOT_RUN : String := "NOT RUN"
/-- Attribute `StatusMixin.NOT_SET`. -/
def NOT_SET : String := "NOT SET"

/-- The `StatusMixin.passed` getter: `self.status == self.PASS`. -/
def passed_get (status : String) : Bool := status == PASS

/-- The `StatusMixin.passed` setter: `self.status = self.PASS if passed else self.FAIL`.
Returns the new value of `self.status`. -/
def passed_set (passed : Bool) : String := if passed then PASS else FAIL

/-- The `StatusMixin.failed` getter: `self.status == self.FAIL`. -/
def failed_get (status : String) : Bool := status == FAIL

/-- The `StatusMixin.failed` setter: `self.status = self.FAIL if failed else self.PASS`.
Returns the new value of `self.status`. -/
def failed_set (failed : Bool) : String := if failed then FAIL else PASS

/-- The `StatusMixin.skipped` getter: `self.status == self.SKIP`. -/
def skipped_get (status : String) : Bool := status == SKIP

/-- The `StatusMixin.skipped` setter: raises `ValueError` when the assigned value
is falsy, otherwise `self.status = self.SKIP`. Returns the new status. -/
def skipped_set (skipped : Bool) : Except PyError String :=
  if !skipped then
    .error (.valueError ("`skipped` value must be truthy, got '"
                         ++ pyBoolStr skipped ++ "'."))
  else
    .ok SKIP

/-- The `StatusMixin.not_run` getter: `self.status == self.NOT_RUN`. -/
def not_run_get (status : String) : Bool := status == NOT_RUN

/-- The `StatusMixin.not_run` setter: raises `ValueError` when the assigned value
is falsy, otherwise `self.status = self.NOT_RUN`. Returns the new status. -/
def not_run_set (not_run : Bool) : Except PyError String :=
  if !not_run then
    .error (.valueError ("`not_run` value must be truthy, got '"
                         ++ pyBoolStr not_run ++ "'."))
  else
    .ok NOT_RUN

end StatusMixin

/-- Modelled from the spec: `robot.utils.get_elapsed_time` (not under `src/`).
"if both `starttime` and `endtime` are present, elapsed = endtime − starttime
in whole milliseconds"; an absent timestamp is a missing-data fallback handled
by a well-defined default, namely elapsed time 0. -/
def get_elapsed_time (starttime endtime : Option Int) : Int :=
  match starttime, endtime with
  | some st, some et => et - st
  | _, _ => 0

/-- The `result.TestCase`: stored `status`, `message`, timestamps.
Name/doc/tags/timeout/lineno/body are carried by the base class and do not
affect the verified properties; `name` is kept for identification. -/
structure RTest where
  name : String
  status : String
  message : String
  starttime : Option Int
  endtime : Option Int
deriving Repr, DecidableEq

namespace RTest

/-- The `StatusMixin.elapsedtime` as inherited by `TestCase`. -/
def elapsedtime (t : RTest) : Int := get_elapsed_time t.starttime t.endtime

/-- The `TestCase.passed` getter (inherited from `StatusMixin`). -/
def passed_get (t : RTest) : Bool := StatusMixin.passed_get t.status

/-- The `TestCase.passed` setter (inherited from `StatusMixin`). -/
def passed_set (b : Bool) (t : RTest) : RTest :=
  { t with status := StatusMixin.passed_set b }

/-- The `TestCase.failed` getter (inherited from `StatusMixin`). -/
def failed_get (t : RTest) : Bool := StatusMixin.failed_get t.status

/-- The `TestCase.failed` setter (inherited from `StatusMixin`). -/
def failed_set (b : Bool) (t : RTest) : RTest :=
  { t with status := StatusMixin.failed_set b }

/-- The `TestCase.skipped` getter (inherited from `StatusMixin`). -/
def skipped_get (t : RTest) : Bool := StatusMixin.skipped_get t.status

/-- The `TestCase.skipped` setter (inherited from `StatusMixin`). -/
def skipped_set (b : Bool) (t : RTest) : Except PyError RTest :=
  (StatusMixin.skipped_set b).map (fun st => { t with status := st })

/-- The `TestCase.not_run` getter: the class overrides the mixin property with
`return False`, unconditionally. -/
def not_run_get (_ : RTest) : Bool := false

/-- The `TestCase.not_run` assignment: the overriding property defines no setter,
so Python raises `AttributeError`; the mixin setter is shadowed. -/
def not_run_set (_ : Bool) (_ : RTest) : Except PyError RTest :=
  .error (.attributeError "can't set attribute 'not_run'")

end RTest

/-- The `result.Keyword`: name parts (`kwname`, `libname`, either of which can be
set to `None` by the `name` setter), stored `status`, `message`, timestamps,
and the lazily materialized `_teardown` slot (`none` while unset). Doc, args,
assign, tags, timeout, sourcename and the body do not affect the verified
properties and are omitted. -/
inductive RKeyword where
  | mk (kwname libname : Option String) (status message : String)
       (starttime endtime : Option Int) ( teardown_slot : Option RKeyword)
deriving Repr

namespace RKeyword

/-- Attribute `Keyword.kwname`. -/
def kwname : RKeyword → Option String
  | .mk k _ _ _ _ _ _ => k

/-- Attribute `Keyword.libname`. -/
def libname : RKeyword → Option String
  | .mk _ l _ _ _ _ _ => l

/-- Attribute `Keyword.status`. -/
def status : RKeyword → String
  | .mk _ _ s _ _ _ _ => s

/-- Attribute `Keyword.message`. -/
def message : RKeyword → String
  | .mk _ _ _ m _ _ _ => m

/-- Attribute `Keyword.starttime`. -/
def starttime : RKeyword → Option Int
  | .mk _ _ _ _ st _ _ => st

/-- Attribute `Keyword.endtime`. -/
def endtime : RKeyword → Option Int
  | .mk _ _ _ _ _ et _ => et

/-- The `Keyword._teardown`: the private slot behind the `teardown` property. -/
def teardown_slot : RKeyword → Option RKeyword
  | .mk _ _ _ _ _ _ td => td

/-- Replace the stored `status` attribute. -/
def withStatus (st : String) : RKeyword → RKeyword
  | .mk k l _ m s e td => .mk k l st m s e td

/-- Replace the `_teardown` slot. -/
def withTeardownSlot (td : Option RKeyword) : RKeyword → RKeyword
  | .mk k l st m s e _ => .mk k l st m s e td

/-- The `Keyword.name` getter: `kwname` when `libname` is falsy (empty or `None`),
otherwise the Python string `'%s.%s' % (libname, kwname)`. -/
def name_get (kw : RKeyword) : Option String :=
  if !(pyTruthy kw.libname) then kw.kwname
  else some (pyStr kw.libname ++ "." ++ pyStr kw.kwname)

/-- The `Keyword.name` setter: a non-`None` value raises `AttributeError`;
assigning `None` resets both `kwname` and `libname` to `None`. -/
def name_set (name : Option String) (kw : RKeyword) : Except PyError RKeyword :=
  match name, kw with
  | some _, _ =>
      .error (.attributeError ("Cannot set 'name' attribute directly. "
                               ++ "Set 'kwname' and 'libname' separately instead."))
  | none, .mk _ _ st m s e td => .ok (.mk none none st m s e td)

/-- Modelled from the spec: `robot.model` defines keyword truthiness (not
under `src/`). Per the `teardown` docstring in `src/robot/result/model.py`, a
keyword object standing for an absent teardown "is a ``Keyword`` object ...
but in that case its truth value is ``False``": a keyword is truthy exactly
when its `name` is not `None`. -/
def toBool (kw : RKeyword) : Bool := (kw.name_get).isSome

/-- Modelled from the spec: `create_fixture(None, parent, type)` from
`robot.model` (not under `src/`): creating a fixture from `None`
"automatically recreate[s] the underlying ``Keyword`` object" whose truth
value is `False`, i.e. a fresh `Keyword` with `kwname=None` and the
constructor defaults (`libname=''`, `status='FAIL'`, empty message, no
timestamps, no teardown); from an existing keyword it returns that keyword. -/
def create_fixture : Option RKeyword → RKeyword
  | some kw => kw
  | none => .mk none (some "") StatusMixin.FAIL "" none none none

/-- The `Keyword.teardown` getter: materializes the `_teardown` slot through
`create_fixture` when the slot is `None` and the keyword itself is truthy,
then returns the slot's value. Result: the value read and the keyword state
after the read. -/
def teardown_get (kw : RKeyword) : Option RKeyword × RKeyword :=
  match kw.teardown_slot with
  | some td => (some td, kw)
  | none =>
      if kw.toBool then
        let td := create_fixture none
        (some td, kw.withTeardownSlot (some td))
      else
        (none, kw)

/-- The `Keyword.teardown` setter: `self._teardown = create_fixture(teardown, ...)`. -/
def teardown_set (td : Option RKeyword) (kw : RKeyword) : RKeyword :=
  kw.withTeardownSlot (some (create_fixture td))

/-- The `Keyword.has_teardown`: `bool(self._teardown)` — `False` when the slot is
unset (`None`), otherwise the truthiness of the stored keyword. Reading the
property performs no assignment, so it returns the state unchanged. -/
def has_teardown (kw : RKeyword) : Bool × RKeyword :=
  (match kw.teardown_slot with
   | none => false
   | some td => td.toBool,
   kw)

/-- The `StatusMixin.elapsedtime` as inherited by `Keyword`. -/
def elapsedtime (kw : RKeyword) : Int := get_elapsed_time kw.starttime kw.endtime

/-- The `Keyword.passed` getter (inherited from `StatusMixin`). -/
def passed_get (kw : RKeyword) : Bool := StatusMixin.passed_get kw.status

/-- The `Keyword.passed` setter (inherited from `StatusMixin`). -/
def passed_set (b : Bool) (kw : RKeyword) : RKeyword :=
  kw.withStatus (StatusMixin.passed_set b)

/-- The `Keyword.failed` getter (inherited from `StatusMixin`). -/
def failed_get (kw : RKeyword) : Bool := StatusMixin.failed_get kw.status

/-- The `Keyword.failed` setter (inherited from `StatusMixin`). -/
def failed_set (b : Bool) (kw : RKeyword) : RKeyword :=
  kw.withStatus (StatusMixin.failed_set b)

/-- The `Keyword.skipped` setter (inherited from `StatusMixin`). -/
def skipped_set (b : Bool) (kw : RKeyword) : Except PyError RKeyword :=
  (StatusMixin.skipped_set b).map kw.withStatus

/-- The `Keyword.not_run` setter (inherited from `StatusMixin`). -/
def not_run_set (b : Bool) (kw : RKeyword) : Except PyError RKeyword :=
  (StatusMixin.not_run_set b).map kw.withStatus

end RKeyword

/-- The `result.TestSuite`: name, documentation, metadata, setup/teardown error
`message`, timestamps, `rpa` flag, the parent back-reference abstracted to the
Boolean `hasParent` (`parent is not None`), optional setup/teardown fixtures,
child suites and child tests. The class stores no `status` attribute. -/
inductive RSuite where
  | mk (name doc : String) (metadata : List (String × String)) (message : String)
       (starttime endtime : Option Int) (rpa hasParent : Bool)
       (setup teardown : Option RKeyword)
       (suites : List RSuite) (tests : List RTest)
deriving Repr

namespace RSuite

/-- Attribute `TestSuite.name`. -/
def name : RSuite → String
  | .mk n _ _ _ _ _ _ _ _ _ _ _ => n

/-- Attribute `TestSuite.doc`. -/
def doc : RSuite → String
  | .mk _ d _ _ _ _ _ _ _ _ _ _ => d

/-- The `TestSuite.metadata` (ordered key→value pairs). -/
def metadata : RSuite → List (String × String)
  | .mk _ _ md _ _ _ _ _ _ _ _ _ => md

/-- Attribute `TestSuite.message`. -/
def message : RSuite → String
  | .mk _ _ _ m _ _ _ _ _ _ _ _ => m

/-- Attribute `TestSuite.starttime`. -/
def starttime : RSuite → Option Int
  | .mk _ _ _ _ st _ _ _ _ _ _ _ => st

/-- Attribute `TestSuite.endtime`. -/
def endtime : RSuite → Option Int
  | .mk _ _ _ _ _ et _ _ _ _ _ _ => et

/-- Attribute `TestSuite.rpa`. -/
def rpa : RSuite → Bool
  | .mk _ _ _ _ _ _ r _ _ _ _ _ => r

/-- Value of `self.parent is not None` for the suite. -/
def hasParent : RSuite → Bool
  | .mk _ _ _ _ _ _ _ hp _ _ _ _ => hp

/-- The `TestSuite.setup` fixture slot (`none` when not set). -/
def setup : RSuite → Option RKeyword
  | .mk _ _ _ _ _ _ _ _ su _ _ _ => su

/-- The `TestSuite.teardown` fixture slot (`none` when not set). -/
def teardown : RSuite → Option RKeyword
  | .mk _ _ _ _ _ _ _ _ _ td _ _ => td

/-- The `TestSuite.suites`: child suites in order. -/
def suites : RSuite → List RSuite
  | .mk _ _ _ _ _ _ _ _ _ _ ss _ => ss

/-- The `TestSuite.tests`: child tests in order. -/
def tests : RSuite → List RTest
  | .mk _ _ _ _ _ _ _ _ _ _ _ ts => ts

end RSuite

mutual

/-- All tests in the suite subtree, the suite's direct tests first followed by
the tests of the nested suites in order. This is the collection the
statistics builder and the transformation visitors traverse. -/
def RSuite.allTests : RSuite → List RTest
  | .mk _ _ _ _ _ _ _ _ _ _ ss ts => ts ++ allTestsOf ss

/-- Tests of a list of suites, concatenated in order. -/
def allTestsOf : List RSuite → List RTest
  | [] => []
  | s :: rest => s.allTests ++ allTestsOf rest

end

mutual

/-- Apply a transformation to every test in the suite subtree (the shape a
test-mutating visitor with default recursion has). -/
def RSuite.mapTests (f : RTest → RTest) : RSuite → RSuite
  | .mk n d md m st et r hp su td ss ts =>
      .mk n d md m st et r hp su td (mapTestsOf f ss) (ts.map f)

/-- The `RSuite.mapTests` over a list of child suites. -/
def mapTestsOf (f : RTest → RTest) : List RSuite → List RSuite
  | [] => []
  | s :: rest => s.mapTests f :: mapTestsOf f rest

end

/-- Elapsed time contributed by a fixture slot: accessing `TestSuite.setup`
or `.teardown` materializes an empty `Keyword` (truth value `False`, no
timestamps) when the slot is unset, whose elapsed time is 0. -/
def fixtureElapsed : Option RKeyword → Int
  | none => (RKeyword.create_fixture none).elapsedtime
  | some kw => kw.elapsedtime

mutual

/-- The `TestSuite.elapsedtime`: the timestamp difference when both `starttime`
and `endtime` are truthy, otherwise the sum of the elapsed times of the child
suites, the child tests, the setup and the teardown. -/
def RSuite.elapsedtime : RSuite → Int
  | .mk _ _ _ _ starttime endtime _ _ setup teardown ss ts =>
      match starttime, endtime with
      | some st, some et => get_elapsed_time (some st) (some et)
      | _, _ =>
          elapsedOf ss + (ts.map RTest.elapsedtime).sum
            + fixtureElapsed setup + fixtureElapsed teardown

/-- Summed `RSuite.elapsedtime` over a list of child suites. -/
def elapsedOf : List RSuite → Int
  | [] => 0
  | s :: rest => s.elapsedtime + elapsedOf rest

end

namespace RSuite

/-- Modelled from the spec: `TotalStatisticsBuilder` (`robot.model`, not under
`src/`) visits every test in the entire suite subtree and counts the tests
that have passed (`stats.passed`). -/
def stats_passed (s : RSuite) : Nat :=
  (s.allTests.filter (fun t => t.status == StatusMixin.PASS)).length

/-- Modelled from the spec: `TotalStatisticsBuilder` (`robot.model`, not under
`src/`) visits every test in the entire suite subtree and counts the tests
that have failed (`stats.failed`). -/
def stats_failed (s : RSuite) : Nat :=
  (s.allTests.filter (fun t => t.status == StatusMixin.FAIL)).length

/-- The `TestSuite.status`: `FAIL` if `stats.failed` is truthy (non-zero), else
`PASS` if `stats.passed` is truthy, else `SKIP`. Derived on every access. -/
def status (s : RSuite) : String :=
  if s.stats_failed ≠ 0 then StatusMixin.FAIL
  else if s.stats_passed ≠ 0 then StatusMixin.PASS
  else StatusMixin.SKIP

/-- Assignment to `TestSuite.status`: the property defines no setter, so
Python raises `AttributeError`. -/
def status_set (_ : String) (_ : RSuite) : Except PyError RSuite :=
  .error (.attributeError "can't set attribute 'status'")

/-- The `TestSuite.passed`: `self.status == self.PASS` (read-only override). -/
def passed_get (s : RSuite) : Bool := s.status == StatusMixin.PASS

/-- The `TestSuite.failed`: `self.status == self.FAIL` (read-only override). -/
def failed_get (s : RSuite) : Bool := s.status == StatusMixin.FAIL

/-- The `TestSuite.skipped`: `self.status == self.SKIP` (read-only override). -/
def skipped_get (s : RSuite) : Bool := s.status == StatusMixin.SKIP

/-- The `TestSuite.not_run`: the class overrides the mixin property with
`return False`, unconditionally. -/
def not_run_get (_ : RSuite) : Bool := false

/-- The `TestSuite.not_run` assignment: the overriding property defines no
setter, so Python raises `AttributeError`. -/
def not_run_set (_ : Bool) (_ : RSuite) : Except PyError RSuite :=
  .error (.attributeError "can't set attribute 'not_run'")

end RSuite

/-- A value passed for a `configure` option: a plain string (for `doc`,
`remove_keywords`, `filter_messages`) or a dict of entries (for `metadata`). -/
inductive ConfigValue where
  | str (value : String)
  | dict (entries : List (String × String))
deriving Repr

/-- Modelled from the spec: the option names `SuiteConfigurer` accepts
(`remove_keywords`, `filter_messages`, `doc`, `metadata`, per §6 of the
design). Any other keyword argument is rejected. -/
def configurerOptionNames : List String :=
  ["remove_keywords", "filter_messages", "doc", "metadata"]

/-- Set one metadata entry, overriding an existing key in place and appending
a new key at the end. -/
def setMeta (md : List (String × String)) (k v : String) : List (String × String) :=
  if md.any (fun p => p.1 == k) then
    md.map (fun p => if p.1 == k then (k, v) else p)
  else md ++ [(k, v)]

namespace RSuite

/-- Replace the `doc` attribute. -/
def withDoc (d : String) : RSuite → RSuite
  | .mk n _ md m st et r hp su td ss ts => .mk n d md m st et r hp su td ss ts

/-- Replace the `metadata` attribute. -/
def withMetadata (md : List (String × String)) : RSuite → RSuite
  | .mk n d _ m st et r hp su td ss ts => .mk n d md m st et r hp su td ss ts

/-- Modelled from the spec: applying one accepted `SuiteConfigurer` option to
the root suite: `doc` replaces the documentation, `metadata` sets the given
entries; `remove_keywords` and `filter_messages` run the keyword-removal and
message-filter visitors, which rewrite keyword bodies only — keyword body
content is outside the embedded fields, so on this state they change
nothing. -/
def applyOption (s : RSuite) : String × ConfigValue → RSuite
  | ("doc", .str d) => s.withDoc d
  | ("metadata", .dict entries) =>
      s.withMetadata (entries.foldl (fun md p => setMeta md p.1 p.2) s.metadata)
  | _ => s

/-- Modelled from the spec: `TestSuite.configure(**options)`. The base-class
validation (`model.TestSuite.configure`, not under `src/`) runs first and
rejects a suite that has a parent with a `ValueError` ("can only be used with
the root test suite"), before any option is looked at; then constructing
`SuiteConfigurer(**options)` rejects an unknown option name with a
`TypeError`; on the root suite with known options, the configurer applies
them in order. -/
def configure (options : List (String × ConfigValue)) (s : RSuite) :
    Except PyError RSuite :=
  if s.hasParent then
    .error (.valueError
      "'TestSuite.configure()' can only be used with the root test suite.")
  else
    match options.find? (fun o => !(configurerOptionNames.contains o.1)) with
    | some o =>
        .error (.typeError
          ("SuiteConfigurer() got an unexpected keyword argument '" ++ o.1 ++ "'"))
    | none => .ok (options.foldl applyOption s)

end RSuite

/-- Modelled from the spec: the explanation appended to a test's message by
the `SuiteTeardownFailed` visitor (not under `src/`): the message "is
extended with an explanation referencing the teardown failure". -/
def teardownExtend (old error : String) : String :=
  if old.isEmpty then "Parent suite teardown failed:\n" ++ error
  else old ++ "\n\nAlso parent suite teardown failed:\n" ++ error

/-- Modelled from the spec: the effect of the `SuiteTeardownFailed` visitor
(not under `src/`) on one test: a test "that was otherwise PASS must be
forced to FAIL", with its message extended; other tests keep their status. -/
def RTest.suite_teardown_failed (error : String) (t : RTest) : RTest :=
  if t.status == StatusMixin.PASS then
    { t with status := StatusMixin.FAIL, message := teardownExtend t.message error }
  else t

/-- The `TestSuite.suite_teardown_failed(error)`: visit the whole subtree with
the `SuiteTeardownFailed` visitor, which (modelled from the spec) rewrites
every test directly or transitively under the suite. -/
def RSuite.suite_teardown_failed (error : String) (s : RSuite) : RSuite :=
  s.mapTests (RTest.suite_teardown_failed error)

/-- Whether the suite's own teardown failed, and with what error message. -/
def RSuite.teardownError (s : RSuite) : Option String :=
  match s.teardown with
  | some kw => if kw.status == StatusMixin.FAIL then some kw.message else none
  | none => none

mutual

/-- Modelled from the spec: `TestSuite.handle_suite_teardown_failures` runs
the `SuiteTeardownFailureHandler` visitor (not under `src/`): it recurses
into nested suites and, for each suite whose own teardown failed, propagates
that failure into the tests under it; a suite with no teardown failure is
left as is. -/
def RSuite.handle_suite_teardown_failures : RSuite → RSuite
  | .mk n d md m st et r hp su td ss ts =>
      let s : RSuite := .mk n d md m st et r hp su td (handleFailuresOf ss) ts
      match s.teardownError with
      | some error => s.suite_teardown_failed error
      | none => s

/-- The `RSuite.handle_suite_teardown_failures` over a list of child suites. -/
def handleFailuresOf : List RSuite → List RSuite
  | [] => []
  | s :: rest => s.handle_suite_teardown_failures :: handleFailuresOf rest

end

mutual

/-- Returns `true` when neither this suite's teardown nor any nested suite's
teardown has status `FAIL`. -/
def RSuite.teardownOk : RSuite → Bool
  | .mk _ _ _ _ _ _ _ _ _ td ss _ =>
      (match td with
       | some kw => !(kw.status == StatusMixin.FAIL)
       | none => true) && teardownOkOf ss

/-- The `RSuite.teardownOk` over a list of child suites. -/
def teardownOkOf : List RSuite → Bool
  | [] => true
  | s :: rest => s.teardownOk && teardownOkOf rest

end

/-- The suite-status aggregation rule stated as a pure function of a list of
test statuses, as the spec words it: `FAIL` if any test failed, else `PASS`
if any test passed, else `SKIP`. -/
def derivedStatus (ts : List RTest) : String :=
  if (ts.filter (fun t => t.status == StatusMixin.FAIL)).length ≠ 0 then
    StatusMixin.FAIL
  else if (ts.filter (fun t => t.status == StatusMixin.PASS)).length ≠ 0 then
    StatusMixin.PASS
  else StatusMixin.SKIP

/-- A passed test with timestamps (elapsed 250 ms). -/
def demoTestPass : RTest :=
  { name := "T1", status := StatusMixin.PASS, message := "",
    starttime := some 1000, endtime := some 1250 }

/-- A failed test without timestamps. -/
def demoTestFail : RTest :=
  { name := "T2", status := StatusMixin.FAIL, message := "",
    starttime := none, endtime := none }

/-- A skipped test. -/
def demoTestSkip : RTest :=
  { name := "T3", status := StatusMixin.SKIP, message := "",
    starttime := some 2000, endtime := some 2100 }

/-- A library keyword with no teardown set. -/
def demoKeyword : RKeyword :=
  .mk (some "K") (some "Lib") StatusMixin.PASS "" (some 0) (some 40) none

/-- A non-root child suite holding the failed test. -/
def demoChild : RSuite :=
  .mk "Child" "" [] "" none none false true none none [] [demoTestFail]

/-- A root suite with one passed direct test and the failing child suite. -/
def demoRoot : RSuite :=
  .mk "Root" "" [] "" none none false false none none [demoChild] [demoTestPass]

/-- A root suite whose only test passed and whose teardowns are fine. -/
def demoRootPass : RSuite :=
  .mk "Root2" "" [] "" none none false false none none [] [demoTestPass]

/-- A suite carrying explicit start and end timestamps (elapsed 2500 ms). -/
def demoTimedSuite : RSuite :=
  .mk "Timed" "" [] "" (some 5000) (some 7500) false false none none [] []

mutual

/-- Mapping over the subtree's tests collects to mapping over `allTests`. -/
theorem allTests_mapTests (f : RTest → RTest) (s : RSuite) :
    (s.mapTests f).allTests = s.allTests.map f := by
  cases s with
  | mk n d md m st et r hp su td ss ts =>
      simp [RSuite.mapTests, RSuite.allTests, allTestsOf_mapTestsOf f ss]

/-- List version of `allTests_mapTests`. -/
theorem allTestsOf_mapTestsOf (f : RTest → RTest) (l : List RSuite) :
    allTestsOf (mapTestsOf f l) = (allTestsOf l).map f := by
  cases l with
  | nil => simp [mapTestsOf, allTestsOf]
  | cons s rest =>
      simp [mapTestsOf, allTestsOf, allTests_mapTests f s,
            allTestsOf_mapTestsOf f rest]

end

/-- Helper: `withStatus` only touches the status field. -/
@[simp] theorem RKeyword.status_withStatus (kw : RKeyword) (st : String) :
    (kw.withStatus st).status = st := by
  cases kw; rfl

/-- A filtered list is non-empty exactly when some element satisfies the
predicate. -/
theorem filter_length_ne_zero {α : Type} (p : α → Bool) (l : List α) :
    (l.filter p).length ≠ 0 ↔ ∃ a ∈ l, p a = true := by
  simp [List.length_eq_zero, List.filter_eq_nil_iff]

/-- Tests of a member suite are among the tests collected over the list. -/
theorem mem_allTestsOf {t : RTest} {s' : RSuite} (l : List RSuite) :
    s' ∈ l → t ∈ s'.allTests → t ∈ allTestsOf l := by
  induction l with
  | nil => intro hs _; cases hs
  | cons x rest ih =>
      intro hs ht
      rw [allTestsOf]
      rcases List.mem_cons.mp hs with h | h
      · subst h; exact List.mem_append_left _ ht
      · exact List.mem_append_right _ (ih h ht)

/-- Helper: `elapsedOf` is the sum of the child suites' elapsed times. -/
theorem elapsedOf_eq_sum (l : List RSuite) :
    elapsedOf l = (l.map RSuite.elapsedtime).sum := by
  induction l with
  | nil => rfl
  | cons s rest ih => rw [elapsedOf, ih]; simp

mutual

/-- A suite with no teardown failure anywhere is left untouched by the
teardown-failure handler. -/
theorem handle_of_teardownOk (s : RSuite) (h : s.teardownOk = true) :
    s.handle_suite_teardown_failures = s := by
  cases s with
  | mk n d md m st et r hp su td ss ts =>
      simp only [RSuite.teardownOk, Bool.and_eq_true] at h
      have hss : handleFailuresOf ss = ss :=
        handleFailuresOf_of_teardownOkOf ss h.2
      have htd : (RSuite.mk n d md m st et r hp su td ss ts).teardownError
          = none := by
        cases td with
        | none => simp [RSuite.teardownError, RSuite.teardown]
        | some kw =>
            have h1 := h.1
            simp only [Bool.not_eq_true'] at h1
            simp [RSuite.teardownError, RSuite.teardown, h1]
      simp only [RSuite.handle_suite_teardown_failures, hss, htd]

/-- List version of `handle_of_teardownOk`. -/
theorem handleFailuresOf_of_teardownOkOf (l : List RSuite)
    (h : teardownOkOf l = true) : handleFailuresOf l = l := by
  cases l with
  | nil => rfl
  | cons s rest =>
      simp only [teardownOkOf, Bool.and_eq_true] at h
      simp only [handleFailuresOf, handle_of_teardownOk s h.1,
                 handleFailuresOf_of_teardownOkOf rest h.2]

end

/-- The `TestSuite.status` is exactly the aggregation rule applied to the current
subtree's tests. -/
theorem status_eq_derivedStatus (s : RSuite) :
    s.status = derivedStatus s.allTests := rfl

/-- C1: For every TestSuite, the derived status is 'FAIL' iff some test
anywhere in the subtree (direct tests and tests of nested suites alike) has
status FAIL; otherwise 'PASS' iff some such test has status PASS; otherwise
'SKIP' (covering both no tests at all and no passed/failed tests). The status
cannot be assigned: the property has no setter, so assignment raises
`AttributeError`. -/
theorem suite_status_is_derived (s : RSuite) :
    (s.status = StatusMixin.FAIL ↔
       ∃ t ∈ s.allTests, t.status = StatusMixin.FAIL)
  ∧ (s.status = StatusMixin.PASS ↔
       (¬ ∃ t ∈ s.allTests, t.status = StatusMixin.FAIL)
       ∧ ∃ t ∈ s.allTests, t.status = StatusMixin.PASS)
  ∧ (s.status = StatusMixin.SKIP ↔
       (¬ ∃ t ∈ s.allTests, t.status = StatusMixin.FAIL)
       ∧ ¬ ∃ t ∈ s.allTests, t.status = StatusMixin.PASS)
  ∧ (∀ t ∈ s.tests, t ∈ s.allTests)
  ∧ (∀ s' ∈ s.suites, ∀ t ∈ s'.allTests, t ∈ s.allTests)
  ∧ (∀ v, RSuite.status_set v s
       = .error (.attributeError "can't set attribute 'status'")) := by
  have hf : (s.stats_failed ≠ 0) ↔
      ∃ t ∈ s.allTests, t.status = StatusMixin.FAIL := by
    simp [RSuite.stats_failed, filter_length_ne_zero]
  have hp : (s.stats_passed ≠ 0) ↔
      ∃ t ∈ s.allTests, t.status = StatusMixin.PASS := by
    simp [RSuite.stats_passed, filter_length_ne_zero]
  have tri :
      (s.status = StatusMixin.FAIL ↔
         ∃ t ∈ s.allTests, t.status = StatusMixin.FAIL)
    ∧ (s.status = StatusMixin.PASS ↔
         (¬ ∃ t ∈ s.allTests, t.status = StatusMixin.FAIL)
         ∧ ∃ t ∈ s.allTests, t.status = StatusMixin.PASS)
    ∧ (s.status = StatusMixin.SKIP ↔
         (¬ ∃ t ∈ s.allTests, t.status = StatusMixin.FAIL)
         ∧ ¬ ∃ t ∈ s.allTests, t.status = StatusMixin.PASS) := by
    by_cases hF : s.stats_failed = 0
    · have hfe : ¬ ∃ t ∈ s.allTests, t.status = StatusMixin.FAIL :=
        fun hx => (hf.mpr hx) hF
      by_cases hP : s.stats_passed = 0
      · have hpe : ¬ ∃ t ∈ s.allTests, t.status = StatusMixin.PASS :=
          fun hx => (hp.mpr hx) hP
        have hst : s.status = StatusMixin.SKIP := by
          simp [RSuite.status, hF, hP]
        exact ⟨iff_of_false (by rw [hst]; decide) hfe,
               iff_of_false (by rw [hst]; decide) (fun hx => hpe hx.2),
               iff_of_true hst ⟨hfe, hpe⟩⟩
      · have hpv : ∃ t ∈ s.allTests, t.status = StatusMixin.PASS := hp.mp hP
        have hst : s.status = StatusMixin.PASS := by
          simp [RSuite.status, hF, hP]
        exact ⟨iff_of_false (by rw [hst]; decide) hfe,
               iff_of_true hst ⟨hfe, hpv⟩,
               iff_of_false (by rw [hst]; decide) (fun hx => hx.2 hpv)⟩
    · have hfv : ∃ t ∈ s.allTests, t.status = StatusMixin.FAIL := hf.mp hF
      have hst : s.status = StatusMixin.FAIL := by
        simp [RSuite.status, hF]
      exact ⟨iff_of_true hst hfv,
             iff_of_false (by rw [hst]; decide) (fun hx => hx.1 hfv),
             iff_of_false (by rw [hst]; decide) (fun hx => hx.1 hfv)⟩
  refine ⟨tri.1, tri.2.1, tri.2.2, ?_, ?_, fun v => rfl⟩
  · intro t ht
    cases s with
    | mk n d md m sta en rr pr su td ss ts =>
        rw [RSuite.allTests]
        exact List.mem_append_left _ (by simpa [RSuite.tests] using ht)
  · intro s' hs' t ht
    cases s with
    | mk n d md m sta en rr pr su td ss ts =>
        rw [RSuite.allTests]
        exact List.mem_append_right _
          (mem_allTestsOf ss (by simpa [RSuite.suites] using hs') ht)

/-- Witness for C1: the demo root suite's status is FAIL, exhibited through
the failed test living in the nested child suite. -/
theorem suite_status_is_derived_witness : demoRoot.status = StatusMixin.FAIL :=
  (suite_status_is_derived demoRoot).1.mpr
    ⟨demoTestFail,
     by simp [demoRoot, demoChild, RSuite.allTests, allTestsOf],
     rfl⟩

/-- C5: Suite status is recomputed from the current descendant tests on every
access: it always equals the aggregation rule applied to the suite's current
tests, and after any mutation of the descendant tests it equals the rule
applied to the mutated tests; two reads separated by a mutation can differ. -/
theorem suite_status_not_cached (s : RSuite) (f : RTest → RTest) :
    s.status = derivedStatus s.allTests
  ∧ (s.mapTests f).status = derivedStatus (s.allTests.map f)
  ∧ ∃ s0 : RSuite, ∃ g : RTest → RTest,
      s0.status ≠ (s0.mapTests g).status := by
  refine ⟨status_eq_derivedStatus s, ?_, ?_⟩
  · rw [status_eq_derivedStatus, allTests_mapTests]
  · refine ⟨demoRootPass, fun t => { t with status := StatusMixin.FAIL }, ?_⟩
    have h1 : demoRootPass.allTests = [demoTestPass] := by
      simp [demoRootPass, RSuite.allTests, allTestsOf]
    have h2 : (demoRootPass.mapTests
        (fun t => { t with status := StatusMixin.FAIL })).allTests
        = [{ demoTestPass with status := StatusMixin.FAIL }] := by
      rw [allTests_mapTests, h1]; rfl
    rw [status_eq_derivedStatus, status_eq_derivedStatus, h1, h2]
    decide

/-- C3: A suite's elapsed time is the millisecond difference of its own
timestamps when both are present, and otherwise the sum of the elapsed times
of its child suites, child tests, setup and teardown (the fallback sum is
used only in the absent case). -/
theorem suite_elapsedtime_rule (s : RSuite) :
    (∀ st et, s.starttime = some st → s.endtime = some et →
        s.elapsedtime = et - st)
  ∧ ((s.starttime = none ∨ s.endtime = none) →
        s.elapsedtime = (s.suites.map RSuite.elapsedtime).sum
          + (s.tests.map RTest.elapsedtime).sum
          + fixtureElapsed s.setup + fixtureElapsed s.teardown) := by
  cases s with
  | mk n d md m sta en rr pr su td ss ts =>
      constructor
      · intro st et h1 h2
        simp only [RSuite.starttime] at h1
        simp only [RSuite.endtime] at h2
        subst h1; subst h2
        simp [RSuite.elapsedtime, get_elapsed_time]
      · intro h
        have hmatch :
            (RSuite.mk n d md m sta en rr pr su td ss ts).elapsedtime
              = elapsedOf ss + (ts.map RTest.elapsedtime).sum
                + fixtureElapsed su + fixtureElapsed td := by
          rcases h with h | h
          · simp only [RSuite.starttime] at h
            subst h
            simp [RSuite.elapsedtime]
          · simp only [RSuite.endtime] at h
            subst h
            cases sta <;> simp [RSuite.elapsedtime]
        rw [hmatch, elapsedOf_eq_sum]
        simp [RSuite.suites, RSuite.tests, RSuite.setup, RSuite.teardown]

/-- Witness for C3: a suite with explicit timestamps yields their difference,
and the demo root (no timestamps) yields the sum over its children. -/
theorem suite_elapsedtime_rule_witness :
    demoTimedSuite.elapsedtime = 2500
  ∧ demoRoot.elapsedtime = (demoRoot.suites.map RSuite.elapsedtime).sum
      + (demoRoot.tests.map RTest.elapsedtime).sum
      + fixtureElapsed demoRoot.setup + fixtureElapsed demoRoot.teardown :=
  ⟨(suite_elapsedtime_rule demoTimedSuite).1 5000 7500 rfl rfl,
   (suite_elapsedtime_rule demoRoot).2 (Or.inl rfl)⟩

/-- C4: Invoking suite-teardown-failure propagation with a given error
rewrites every test directly or transitively under the suite (including
nested suites) with the per-test update; that update forces every previously
PASS test to FAIL and extends its message with the explanation referencing
the teardown error; when no teardown anywhere in the suite failed, the
teardown-failure pass leaves the whole suite — in particular every test's
status — unchanged. -/
theorem suite_teardown_propagation (s : RSuite) (error : String) :
    (s.suite_teardown_failed error).allTests
        = s.allTests.map (RTest.suite_teardown_failed error)
  ∧ (∀ t : RTest, t.status = StatusMixin.PASS →
        (RTest.suite_teardown_failed error t).status = StatusMixin.FAIL
      ∧ (RTest.suite_teardown_failed error t).message
          = teardownExtend t.message error)
  ∧ (s.teardownOk = true → s.handle_suite_teardown_failures = s) := by
  refine ⟨?_, ?_, handle_of_teardownOk s⟩
  · rw [RSuite.suite_teardown_failed, allTests_mapTests]
  · intro t ht
    constructor
    · simp [RTest.suite_teardown_failed, ht]
    · simp [RTest.suite_teardown_failed, ht]

/-- Witness for C4: the passed demo test is forced to FAIL with the extended
message, and the demo root suite (whose teardowns are all absent, hence none
failed) is untouched by the handler. -/
theorem suite_teardown_propagation_witness :
    (RTest.suite_teardown_failed "Teardown crashed" demoTestPass).status
        = StatusMixin.FAIL
  ∧ (RTest.suite_teardown_failed "Teardown crashed" demoTestPass).message
        = teardownExtend demoTestPass.message "Teardown crashed"
  ∧ demoRoot.handle_suite_teardown_failures = demoRoot :=
  ⟨((suite_teardown_propagation demoRoot "Teardown crashed").2.1
      demoTestPass rfl).1,
   ((suite_teardown_propagation demoRoot "Teardown crashed").2.1
      demoTestPass rfl).2,
   (suite_teardown_propagation demoRoot "Teardown crashed").2.2
     (by simp [demoRoot, demoChild, RSuite.teardownOk, teardownOkOf])⟩

/-- C6: `configure` on a suite with a parent fails with the not-root
`ValueError` no matter which options were passed (so before any option is
applied), and that error is a different kind from the unknown-option
`TypeError`; on the root suite, an unknown option name yields the
`TypeError`, while known options are accepted and applied in order
(in particular `doc` replaces the documentation). -/
theorem configure_root_only (s : RSuite) (options : List (String × ConfigValue)) :
    (s.hasParent = true → s.configure options
        = .error (.valueError
            "'TestSuite.configure()' can only be used with the root test suite."))
  ∧ (∀ m m', (PyError.valueError m) ≠ (PyError.typeError m'))
  ∧ (s.hasParent = false →
       (∃ o ∈ options, configurerOptionNames.contains o.1 = false) →
       ∃ m, s.configure options = .error (.typeError m))
  ∧ (s.hasParent = false →
       (∀ o ∈ options, configurerOptionNames.contains o.1 = true) →
       s.configure options = .ok (options.foldl RSuite.applyOption s))
  ∧ (s.hasParent = false → ∀ d,
       s.configure [("doc", ConfigValue.str d)] = .ok (s.withDoc d)) := by
  refine ⟨?_, ?_, ?_, ?_, ?_⟩
  · intro h
    simp [RSuite.configure, h]
  · intro m m' h
    cases h
  · intro hroot hbad
    rw [RSuite.configure]
    simp only [hroot, Bool.false_eq_true, if_false]
    rcases hfind : options.find? (fun o => !(configurerOptionNames.contains o.1)) with _ | o
    · rw [List.find?_eq_none] at hfind
      rcases hbad with ⟨o, ho, hbadname⟩
      exact absurd (by rw [hbadname]; rfl) (hfind o ho)
    · rw [hfind]
      exact ⟨_, rfl⟩
  · intro hroot hgood
    rw [RSuite.configure]
    simp only [hroot, Bool.false_eq_true, if_false]
    have hfind : options.find? (fun o => !(configurerOptionNames.contains o.1))
        = none := by
      rw [List.find?_eq_none]
      intro o ho
      rw [hgood o ho]
      simp
    rw [hfind]
  · intro hroot d
    rw [RSuite.configure]
    simp only [hroot, Bool.false_eq_true, if_false]
    simp [configurerOptionNames, RSuite.applyOption]

/-- Witness for C6: configuring the non-root demo child suite fails with the
not-root `ValueError`; configuring the root with an unknown option fails with
a `TypeError`; configuring the root with `doc` replaces the documentation. -/
theorem configure_root_only_witness :
    demoChild.configure []
      = .error (.valueError
          "'TestSuite.configure()' can only be used with the root test suite.")
  ∧ (∃ m, demoRoot.configure [("bogus_option", ConfigValue.str "x")]
      = .error (.typeError m))
  ∧ demoRoot.configure [("doc", ConfigValue.str "Smoke test results.")]
      = .ok (demoRoot.withDoc "Smoke test results.") :=
  ⟨(configure_root_only demoChild []).1 rfl,
   (configure_root_only demoRoot [("bogus_option", ConfigValue.str "x")]).2.2.1
     rfl ⟨("bogus_option", ConfigValue.str "x"), by simp, by decide⟩,
   (configure_root_only demoRoot []).2.2.2.2 rfl "Smoke test results."⟩

/-- Helper: `withTeardownSlot` replaces exactly the `_teardown` slot. -/
@[simp] theorem RKeyword.teardown_slot_withTeardownSlot
    (kw : RKeyword) (td : Option RKeyword) :
    (kw.withTeardownSlot td).teardown_slot = td := by
  cases kw; rfl

/-- C2 as stated is false on tests: `TestCase` overrides `not_run` with a
getter-only property, so assigning it a truthy value raises `AttributeError`
instead of setting the status to 'NOT RUN'. -/
theorem status_flags_counterexample :
    RTest.not_run_set true demoTestSkip
      = .error (.attributeError "can't set attribute 'not_run'") := rfl

/-- C2 (amended): for every node whose class takes the `StatusMixin` property
(keywords, control-flow blocks, iterations, branches, control statements, and
tests for `skipped`), assigning `skipped`/`not_run` a truthy value sets the
status to 'SKIP'/'NOT RUN' and assigning a falsy value raises `ValueError`
and leaves the node unchanged; on `TestCase` (and `TestSuite`) `not_run` is a
getter-only override, so any assignment to it raises `AttributeError`. -/
theorem status_flags_set_only_true (kw : RKeyword) (t : RTest) :
    StatusMixin.skipped_set true = .ok StatusMixin.SKIP
  ∧ StatusMixin.not_run_set true = .ok StatusMixin.NOT_RUN
  ∧ (∃ m, StatusMixin.skipped_set false = .error (.valueError m))
  ∧ (∃ m, StatusMixin.not_run_set false = .error (.valueError m))
  ∧ kw.skipped_set true = .ok (kw.withStatus StatusMixin.SKIP)
  ∧ kw.not_run_set true = .ok (kw.withStatus StatusMixin.NOT_RUN)
  ∧ (∃ m, kw.skipped_set false = .error (.valueError m))
  ∧ (∃ m, kw.not_run_set false = .error (.valueError m))
  ∧ t.skipped_set true = .ok { t with status := StatusMixin.SKIP }
  ∧ (∃ m, t.skipped_set false = .error (.valueError m))
  ∧ (∀ v, ∃ m, t.not_run_set v = .error (.attributeError m)) :=
  ⟨rfl, rfl, ⟨_, rfl⟩, ⟨_, rfl⟩, rfl, rfl, ⟨_, rfl⟩, ⟨_, rfl⟩, rfl, ⟨_, rfl⟩,
   fun _ => ⟨_, rfl⟩⟩

/-- C7: When a keyword has no teardown, reading `has_teardown` returns
`False` and leaves the internal `_teardown` slot unset, while reading the
`teardown` property materializes (and stores) a default `Keyword` object for
a truthy keyword; a keyword that has a real teardown reports
`has_teardown = True`. -/
theorem keyword_teardown_lazy (kw : RKeyword) :
    (kw.teardown_slot = none → kw.has_teardown = (false, kw))
  ∧ (kw.teardown_slot = none → kw.toBool = true →
        ((kw.teardown_get).2).teardown_slot = some (RKeyword.create_fixture none)
      ∧ (kw.teardown_get).1 = some (RKeyword.create_fixture none))
  ∧ (∀ td, kw.teardown_slot = some td → td.toBool = true →
        (kw.has_teardown).1 = true) := by
  refine ⟨?_, ?_, ?_⟩
  · intro h
    simp [RKeyword.has_teardown, h]
  · intro h hb
    constructor
    · simp [RKeyword.teardown_get, h, hb]
    · simp [RKeyword.teardown_get, h, hb]
  · intro td h htd
    simp [RKeyword.has_teardown, h, htd]

/-- Witness for C7: the demo keyword (truthy, no teardown) answers
`has_teardown` with `False` without touching its state, and reading
`teardown` on it materializes the default fixture into the slot. -/
theorem keyword_teardown_lazy_witness :
    demoKeyword.has_teardown = (false, demoKeyword)
  ∧ ((demoKeyword.teardown_get).2).teardown_slot
      = some (RKeyword.create_fixture none) :=
  ⟨(keyword_teardown_lazy demoKeyword).1 rfl,
   ((keyword_teardown_lazy demoKeyword).2.1 rfl rfl).1⟩

/-- C8: `TestCase.not_run` and `TestSuite.not_run` read as `False`
unconditionally — even for a test whose stored status is 'NOT RUN' — and are
read-only: assigning them raises `AttributeError` instead of the
`StatusMixin` setter behaviour. -/
theorem not_run_readonly_override (t : RTest) (s : RSuite) (v w : Bool) :
    t.not_run_get = false
  ∧ RTest.not_run_get { t with status := StatusMixin.NOT_RUN } = false
  ∧ s.not_run_get = false
  ∧ (∃ m, t.not_run_set v = .error (.attributeError m))
  ∧ (∃ m, s.not_run_set w = .error (.attributeError m)) :=
  ⟨rfl, rfl, rfl, ⟨_, rfl⟩, ⟨_, rfl⟩⟩

/-- C9: On tests and keywords, assigning `passed = b` stores status 'PASS'
when `b` is true and 'FAIL' when false, after which `passed` reads back `b`
and `failed` reads `not b`; symmetrically for `failed = b`. -/
theorem passed_failed_roundtrip (t : RTest) (kw : RKeyword) (b : Bool) :
    (t.passed_set b).status
        = (if b then StatusMixin.PASS else StatusMixin.FAIL)
  ∧ (t.passed_set b).passed_get = b
  ∧ (t.passed_set b).failed_get = !b
  ∧ (t.failed_set b).status
        = (if b then StatusMixin.FAIL else StatusMixin.PASS)
  ∧ (t.failed_set b).failed_get = b
  ∧ (t.failed_set b).passed_get = !b
  ∧ (kw.passed_set b).status
        = (if b then StatusMixin.PASS else StatusMixin.FAIL)
  ∧ (kw.passed_set b).passed_get = b
  ∧ (kw.passed_set b).failed_get = !b
  ∧ (kw.failed_set b).status
        = (if b then StatusMixin.FAIL else StatusMixin.PASS)
  ∧ (kw.failed_set b).failed_get = b
  ∧ (kw.failed_set b).passed_get = !b := by
  cases b <;>
    simp [RTest.passed_set, RTest.failed_set, RTest.passed_get,
          RTest.failed_get, RKeyword.passed_set, RKeyword.failed_set,
          RKeyword.passed_get, RKeyword.failed_get, StatusMixin.passed_set,
          StatusMixin.failed_set, StatusMixin.passed_get,
          StatusMixin.failed_get, StatusMixin.PASS, StatusMixin.FAIL]

/-- C10: `Keyword.name` reads as `kwname` when `libname` is falsy and as
`'libname.kwname'` otherwise; assigning any non-`None` value raises
`AttributeError` (and, the assignment failing, `kwname`/`libname` are
untouched), while assigning `None` resets exactly `kwname` and `libname`
to `None`. -/
theorem keyword_name_parts (kw : RKeyword) :
    (pyTruthy kw.libname = false → kw.name_get = kw.kwname)
  ∧ (pyTruthy kw.libname = true →
        kw.name_get = some (pyStr kw.libname ++ "." ++ pyStr kw.kwname))
  ∧ (∀ v : String, kw.name_set (some v)
        = .error (.attributeError ("Cannot set 'name' attribute directly. "
            ++ "Set 'kwname' and 'libname' separately instead.")))
  ∧ (∃ kw', kw.name_set none = .ok kw'
        ∧ kw'.kwname = none ∧ kw'.libname = none
        ∧ kw'.status = kw.status ∧ kw'.message = kw.message
        ∧ kw'.starttime = kw.starttime ∧ kw'.endtime = kw.endtime
        ∧ kw'.teardown_slot = kw.teardown_slot) := by
  refine ⟨?_, ?_, ?_, ?_⟩
  · intro h
    simp [RKeyword.name_get, h]
  · intro h
    simp [RKeyword.name_get, h]
  · intro v
    cases kw; rfl
  · cases kw with
    | mk k l st m s e td =>
        exact ⟨_, rfl, rfl, rfl, rfl, rfl, rfl, rfl, rfl⟩

/-- Witness for C10: the demo keyword has a truthy library name, so its name
reads as `'Lib.K'`. -/
theorem keyword_name_parts_witness : demoKeyword.name_get = some "Lib.K" :=
  (keyword_name_parts demoKeyword).2.1 rfl
